import Mathlib

/-!
Verification of `storage-facade-mockinterface`: an in-memory mock backend
adapter for the `storage-facade` key-value storage abstraction.

The embedding below follows the latest revision of the adapter, the class
`MockInterface` found in `src/unnamed/part_000` (second document, lines
210-362 of the concatenated file); the claims reference its line numbers.
JavaScript values handled by `structuredClone` are modelled as trees
(`JSVal`); reference identity is modelled by an explicit heap of cells, so
that `structuredClone` allocates a fresh cell holding a deep copy and
aliasing/mutation can be expressed.  The JavaScript `Map` (insertion
ordered) is modelled as an association list of key/heap-address pairs.
Deferred (`async`) operations are modelled in two phases exactly as the
code runs them: an initiation phase evaluating the `DelaySetup` object
passed to `wait` (src/unnamed/part_000 lines 267-281), and a timer-fire
phase running the body of the `setTimeout` callback.  A promise settles at
most once, so the observable settlement is the first `resolve`/`reject`
call made by the callback; the full call list is recorded.
-/

namespace MockStorage

/-- Structurally-copyable JavaScript values (the structured-clone domain),
modelled as trees: primitives, arrays and string-keyed objects.  Arrays
and objects are encoded cons-style inside the same inductive so that
decidable equality is derivable. -/
inductive JSVal where
  | null : JSVal
  | boolean (b : Bool) : JSVal
  | number (n : Int) : JSVal
  | jsstring (s : String) : JSVal
  | arrNil : JSVal
  | arrCons (head tail : JSVal) : JSVal
  | objNil : JSVal
  | objCons (field : String) (val rest : JSVal) : JSVal
deriving Repr, DecidableEq

/-- The reference heap: cell `a` is valid when `a < cells.length`; a fresh
cell is appended at address `cells.length`.  Two values are
reference-identical exactly when they sit at the same address. -/
structure Heap where
  cells : List JSVal
deriving Repr, DecidableEq

/-- Read the cell at address `a` (defaulting to `null` off the heap). -/
def Heap.get (h : Heap) (a : Nat) : JSVal :=
  h.cells.getD a .null

/-- Allocate a fresh cell holding `v`; returns the new heap and the fresh
address. -/
def Heap.alloc (h : Heap) (v : JSVal) : Heap × Nat :=
  (⟨h.cells ++ [v]⟩, h.cells.length)

/-- Overwrite the cell at address `a` with `v`: this models a caller
mutating a value it holds a reference to. -/
def Heap.write (h : Heap) (a : Nat) (v : JSVal) : Heap :=
  ⟨h.cells.set a v⟩

/-- Model of the JavaScript global `structuredClone` applied to the value
referenced by `a`: a deep copy is placed in a fresh cell, so the result is
deep-equal to, but not reference-identical with, the input. -/
def structuredClone (h : Heap) (a : Nat) : Heap × Nat :=
  h.alloc (h.get a)

/-- The adapter's backing container `storage: Map<string, unknown>`: an
insertion-ordered association list from keys to heap addresses. -/
abbrev Entries := List (String × Nat)

/-- JavaScript `Map.prototype.get`: first (unique) binding of `key`, or
`undefined` (`none`). -/
def mapGet : Entries → String → Option Nat
  | [], _ => none
  | (k, a) :: rest, key => if k = key then some a else mapGet rest key

/-- JavaScript `Map.prototype.set`: updating an existing key keeps its
position in insertion order; a new key is appended at the end. -/
def mapSet : Entries → String → Nat → Entries
  | [], key, a => [(key, a)]
  | (k, b) :: rest, key, a =>
      if k = key then (key, a) :: rest else (k, b) :: mapSet rest key a

/-- JavaScript `Map.prototype.delete`: removes the (unique) binding of
`key` if present, otherwise a no-op. -/
def mapDelete : Entries → String → Entries
  | [], _ => []
  | (k, a) :: rest, key =>
      if k = key then rest else (k, a) :: mapDelete rest key

/-- Errors thrown by the adapter.  `storageDeleted` is the
`StorageDeletedError` of the spec (`Error('This Storage was deleted!')`,
src/unnamed/part_000 line 220); `contractViolation` is the
`AdapterContractViolation` thrown by `wait` on a malformed descriptor
(line 275). -/
inductive JSError where
  | storageDeleted : JSError
  | contractViolation : JSError
deriving Repr, DecidableEq

/-- The fixed human-readable messages carried by the two errors. -/
def JSError.message : JSError → String
  | .storageDeleted => "This Storage was deleted!"
  | .contractViolation => "\x27wait(\x7b...\x7d)\x27: Use \x27resolve\x27 OR \x27reject\x27!"

/-- The shared default storage name imported from the external
`storage-facade` library (`defaultStorageName`); its concrete text is
owned by that collaborator. -/
def defaultStorageName : String := "storage-facade"

/-- Instance state of the adapter class `MockInterface`
(src/unnamed/part_000 lines 210-217): its name, the one-way deleted latch
and the backing map. -/
structure MockInterface where
  storageName : String := ""
  isDeleted : Bool := false
  storage : Entries := []
deriving Repr, DecidableEq

/-- Line 219-221: `checkStorage()` throws `StorageDeletedError` when the
latch is set. -/
def checkStorage (s : MockInterface) : Except JSError Unit :=
  if s.isDeleted then .error .storageDeleted else .ok ()

/-- Lines 224-227: `initSync` sets the storage name (defaulting) and
always returns the `Ok` marker; it does not consult the latch. -/
def initSync (s : MockInterface) (name : Option String) :
    Except JSError Unit × MockInterface :=
  (.ok (), { s with storageName := name.getD defaultStorageName })

/-- Lines 229-232: `getItemSync` checks the latch then returns
`structuredClone(this.storage.get(key))`; the clone of `undefined` is
`undefined`. -/
def getItemSync (s : MockInterface) (h : Heap) (key : String) :
    Except JSError (Option Nat) × Heap :=
  match checkStorage s with
  | .error e => (.error e, h)
  | .ok () =>
    match mapGet s.storage key with
    | none => (.ok none, h)
    | some a => (.ok (some (structuredClone h a).2), (structuredClone h a).1)

/-- Lines 234-237: `setItemSync` checks the latch then stores a structured
clone of the value under `key`. -/
def setItemSync (s : MockInterface) (h : Heap) (key : String) (a : Nat) :
    Except JSError Unit × MockInterface × Heap :=
  match checkStorage s with
  | .error e => (.error e, s, h)
  | .ok () =>
    (.ok (), { s with storage := mapSet s.storage key (structuredClone h a).2 },
      (structuredClone h a).1)

/-- Lines 239-242: `removeItemSync` checks the latch then deletes the
binding of `key` (a no-op when absent). -/
def removeItemSync (s : MockInterface) (key : String) :
    Except JSError Unit × MockInterface :=
  match checkStorage s with
  | .error e => (.error e, s)
  | .ok () => (.ok (), { s with storage := mapDelete s.storage key })

/-- Lines 244-247: `clearSync` checks the latch then empties the map. -/
def clearSync (s : MockInterface) : Except JSError Unit × MockInterface :=
  match checkStorage s with
  | .error e => (.error e, s)
  | .ok () => (.ok (), { s with storage := [] })

/-- Lines 249-252: `sizeSync` checks the latch then returns the number of
entries. -/
def sizeSync (s : MockInterface) : Except JSError Nat :=
  match checkStorage s with
  | .error e => .error e
  | .ok () => .ok s.storage.length

/-- JavaScript array indexing `xs[i]` for an integer index: `undefined`
(`none`) when `i` is negative or past the end. -/
def listGetI {α : Type} (l : List α) (i : Int) : Option α :=
  if i < 0 then none else l[i.toNat]?

/-- Lines 254-257: `keySync` checks the latch then evaluates
`Array.from(this.storage)[index]?.[0]`: the key at position `index` in
insertion order, or `undefined` when the index is out of range. -/
def keySync (s : MockInterface) (i : Int) : Except JSError (Option String) :=
  match checkStorage s with
  | .error e => .error e
  | .ok () => .ok ((listGetI s.storage i).map Prod.fst)

/-- Lines 259-264: `deleteStorageSync` checks the latch (so it throws on a
second invocation), then clears the map and sets the latch. -/
def deleteStorageSync (s : MockInterface) : Except JSError Unit × MockInterface :=
  match checkStorage s with
  | .error e => (.error e, s)
  | .ok () => (.ok (), { s with storage := [], isDeleted := true })

/-- Payloads placed in the `resolve`/`reject` slots of a `DelaySetup` and
delivered through a promise: the `Ok` marker of the facade library, a
thrown `Error`, a (possibly `undefined`) cloned value handle, a size, or
a (possibly `undefined`) key. -/
inductive JSData where
  | okMarker : JSData
  | jsError (e : JSError) : JSData
  | value (a : Option Nat) : JSData
  | num (n : Nat) : JSData
  | strOpt (s : Option String) : JSData
deriving Repr, DecidableEq

/-- The `action` closures the adapter passes to `wait`, one per call site
(src/unnamed/part_000 lines 283-346); they run inside the timer callback
at fire time. -/
inductive MockAction where
  | initName (name : Option String) : MockAction
  | setEntry (key : String) (a : Nat) : MockAction
  | removeEntry (key : String) : MockAction
  | clearEntries : MockAction
  | deleteStore : MockAction
deriving Repr, DecidableEq

/-- Executes `setup.action?.()`: the effect of the captured closure on the
adapter instance and the heap. -/
def runAction : Option MockAction → MockInterface → Heap → MockInterface × Heap
  | none, s, h => (s, h)
  | some (.initName name), s, h =>
      ({ s with storageName := name.getD defaultStorageName }, h)
  | some (.setEntry key a), s, h =>
      ({ s with storage := mapSet s.storage key (structuredClone h a).2 },
        (structuredClone h a).1)
  | some (.removeEntry key), s, h =>
      ({ s with storage := mapDelete s.storage key }, h)
  | some .clearEntries, s, h => ({ s with storage := [] }, h)
  | some .deleteStore, s, h => ({ s with storage := [], isDeleted := true }, h)

/-- The descriptor object passed to `wait` (lines 198-203 of the same
document): at most one of `resolve`/`reject` should be configured, plus an
optional action.  The payloads are evaluated at initiation time, exactly
as the object literal at each call site is. -/
structure DelaySetup where
  resolve : Option JSData := none
  reject : Option JSData := none
  action : Option MockAction := none
deriving Repr, DecidableEq

/-- One call made on the promise executor: `resolve(d)` or `reject(d)`. -/
inductive Settle where
  | resolved (d : JSData) : Settle
  | rejected (d : JSData) : Settle
deriving Repr, DecidableEq

/-- What the timer callback of `wait` did: the sequence of
`resolve`/`reject` calls it made, and the error it threw, if any. -/
structure FireResult where
  calls : List Settle
  thrown : Option JSError
deriving Repr, DecidableEq

/-- The settlement of the promise: a promise settles at most once, so only
the first `resolve`/`reject` call is observable; later calls are
ignored. -/
def FireResult.settled (r : FireResult) : Option Settle :=
  r.calls.head?

/-- Lines 270-279: the body of the `setTimeout` callback inside `wait`,
run when the timer fires.  Note the code order: a set latch causes
`reject(Error('This Storage was deleted!'))` but execution continues (no
`return`); a malformed descriptor (both or neither outcome configured)
then throws; otherwise the action runs and the configured outcome is
delivered. -/
def fireTimer (setup : DelaySetup) (s : MockInterface) (h : Heap) :
    MockInterface × Heap × FireResult :=
  let calls0 : List Settle :=
    if s.isDeleted then [.rejected (.jsError .storageDeleted)] else []
  let bothSet := setup.resolve.isSome && setup.reject.isSome
  let bothNotSet := setup.resolve.isNone && setup.reject.isNone
  if bothSet || bothNotSet then
    (s, h, ⟨calls0, some .contractViolation⟩)
  else
    let calls1 := calls0 ++
      (match setup.resolve with | some d => [.resolved d] | none => [])
    let calls2 := calls1 ++
      (match setup.reject with | some d => [.rejected d] | none => [])
    ((runAction setup.action s h).1, (runAction setup.action s h).2,
      ⟨calls2, none⟩)

/-- Lines 283-290: `initAsync` defers setting the storage name and
resolves with the `Ok` marker. -/
def initAsyncInit (name : Option String) : DelaySetup :=
  { resolve := some .okMarker, action := some (.initName name) }

/-- Lines 292-296: `getItemAsync` evaluates
`structuredClone(this.storage.get(key))` when the descriptor is built,
i.e. at initiation time, and defers only the delivery. -/
def getItemAsyncInit (s : MockInterface) (h : Heap) (key : String) :
    Heap × DelaySetup :=
  match mapGet s.storage key with
  | none => (h, { resolve := some (.value none) })
  | some a =>
      ((structuredClone h a).1,
        { resolve := some (.value (some (structuredClone h a).2)) })

/-- Lines 298-305: `setItemAsync` defers the store (clone at fire time,
inside the action) and resolves with the `Ok` marker. -/
def setItemAsyncInit (key : String) (a : Nat) : DelaySetup :=
  { resolve := some .okMarker, action := some (.setEntry key a) }

/-- Lines 307-314: `removeItemAsync` defers the deletion of the key. -/
def removeItemAsyncInit (key : String) : DelaySetup :=
  { resolve := some .okMarker, action := some (.removeEntry key) }

/-- Lines 316-323: `clearAsync` defers emptying the map. -/
def clearAsyncInit : DelaySetup :=
  { resolve := some .okMarker, action := some .clearEntries }

/-- Lines 325-329: `sizeAsync` evaluates `this.storage.size` at initiation
time. -/
def sizeAsyncInit (s : MockInterface) : DelaySetup :=
  { resolve := some (.num s.storage.length) }

/-- Lines 331-335: `keyAsync` evaluates
`Array.from(this.storage)[index]?.[0]` at initiation time. -/
def keyAsyncInit (s : MockInterface) (i : Int) : DelaySetup :=
  { resolve := some (.strOpt ((listGetI s.storage i).map Prod.fst)) }

/-- Lines 337-346: `deleteStorageAsync` defers clearing the map and
setting the latch; note it performs no latch check of its own. -/
def deleteStorageAsyncInit : DelaySetup :=
  { resolve := some .okMarker, action := some .deleteStore }

/-- A call to one of the adapter's synchronous methods. -/
inductive SyncCall where
  | getItem (k : String) : SyncCall
  | setItem (k : String) (a : Nat) : SyncCall
  | removeItem (k : String) : SyncCall
  | clear : SyncCall
  | size : SyncCall
  | keyAt (i : Int) : SyncCall
  | deleteStorage : SyncCall
  | init (name : Option String) : SyncCall
deriving Repr, DecidableEq

/-- The six data operations of the latch-finality claim: everything except
`deleteStorage` and `init`. -/
def SyncCall.isDataOp : SyncCall → Bool
  | .deleteStorage => false
  | .init _ => false
  | _ => true

/-- Result value of a synchronous method, unified in one type. -/
inductive SyncRet where
  | unit : SyncRet
  | val (a : Option Nat) : SyncRet
  | num (n : Nat) : SyncRet
  | strOpt (s : Option String) : SyncRet
deriving Repr, DecidableEq

/-- Dispatch a synchronous call to the corresponding method. -/
def runSync (c : SyncCall) (s : MockInterface) (h : Heap) :
    Except JSError SyncRet × MockInterface × Heap :=
  match c with
  | .getItem k =>
      ((getItemSync s h k).1.map .val, s, (getItemSync s h k).2)
  | .setItem k a =>
      ((setItemSync s h k a).1.map fun _ => .unit,
        (setItemSync s h k a).2.1, (setItemSync s h k a).2.2)
  | .removeItem k =>
      ((removeItemSync s k).1.map fun _ => .unit, (removeItemSync s k).2, h)
  | .clear => ((clearSync s).1.map fun _ => .unit, (clearSync s).2, h)
  | .size => ((sizeSync s).map .num, s, h)
  | .keyAt i => ((keySync s i).map .strOpt, s, h)
  | .deleteStorage =>
      ((deleteStorageSync s).1.map fun _ => .unit, (deleteStorageSync s).2, h)
  | .init name =>
      ((initSync s name).1.map fun _ => .unit, (initSync s name).2, h)

/-- A call to one of the adapter's asynchronous methods. -/
inductive AsyncCall where
  | getItem (k : String) : AsyncCall
  | setItem (k : String) (a : Nat) : AsyncCall
  | removeItem (k : String) : AsyncCall
  | clear : AsyncCall
  | size : AsyncCall
  | keyAt (i : Int) : AsyncCall
  | deleteStorage : AsyncCall
  | init (name : Option String) : AsyncCall
deriving Repr, DecidableEq

/-- The six data operations among the asynchronous methods. -/
def AsyncCall.isDataOp : AsyncCall → Bool
  | .deleteStorage => false
  | .init _ => false
  | _ => true

/-- Initiation phase of an asynchronous method: evaluate the descriptor
passed to `wait` at the call site (possibly allocating, for the eager
clone in `getItemAsync`) and schedule it. -/
def initiateAsync (c : AsyncCall) (s : MockInterface) (h : Heap) :
    Heap × DelaySetup :=
  match c with
  | .getItem k => getItemAsyncInit s h k
  | .setItem k a => (h, setItemAsyncInit k a)
  | .removeItem k => (h, removeItemAsyncInit k)
  | .clear => (h, clearAsyncInit)
  | .size => (h, sizeAsyncInit s)
  | .keyAt i => (h, keyAsyncInit s i)
  | .deleteStorage => (h, deleteStorageAsyncInit)
  | .init name => (h, initAsyncInit name)

/-- A whole single-threaded session with one adapter instance: the
instance, the heap, and the scheduled deferred operations (each marked
once its timer has fired — a timer fires exactly once). -/
structure World where
  iface : MockInterface
  heap : Heap
  pending : List (DelaySetup × Bool)
deriving Repr, DecidableEq

/-- An event of the cooperative single-threaded schedule: run a sync
method, initiate an async method, or let the timer of pending operation
`i` fire. -/
inductive Event where
  | sync (c : SyncCall) : Event
  | start (c : AsyncCall) : Event
  | fire (i : Nat) : Event
deriving Repr, DecidableEq

/-- Decidable equality for `Except`, so outcomes can be compared by
`decide`. -/
instance {ε α : Type} [DecidableEq ε] [DecidableEq α] :
    DecidableEq (Except ε α) := fun x y =>
  match x, y with
  | .ok a, .ok b =>
      if h : a = b then .isTrue (by rw [h])
      else .isFalse (by intro hc; cases hc; exact h rfl)
  | .error a, .error b =>
      if h : a = b then .isTrue (by rw [h])
      else .isFalse (by intro hc; cases hc; exact h rfl)
  | .ok _, .error _ => .isFalse (by intro hc; cases hc)
  | .error _, .ok _ => .isFalse (by intro hc; cases hc)

/-- Observable outcome of one event: the return/throw of a sync method,
or what a fired timer callback did. -/
inductive Outcome where
  | syncRes (r : Except JSError SyncRet) : Outcome
  | fireRes (r : FireResult) : Outcome
deriving Repr, DecidableEq

/-- Small-step semantics of a session. Firing an out-of-range or
already-fired timer is a no-op with no outcome. -/
def World.step (w : World) (e : Event) : World × Option Outcome :=
  match e with
  | .sync c =>
      ({ w with
          iface := (runSync c w.iface w.heap).2.1,
          heap := (runSync c w.iface w.heap).2.2 },
        some (.syncRes (runSync c w.iface w.heap).1))
  | .start c =>
      ({ w with
          heap := (initiateAsync c w.iface w.heap).1,
          pending := w.pending ++ [((initiateAsync c w.iface w.heap).2, false)] },
        none)
  | .fire i =>
      match w.pending[i]? with
      | some (p, false) =>
          ({ iface := (fireTimer p w.iface w.heap).1,
             heap := (fireTimer p w.iface w.heap).2.1,
             pending := w.pending.set i (p, true) },
            some (.fireRes (fireTimer p w.iface w.heap).2.2))
      | _ => (w, none)

/-- Run a list of events from a world. -/
def World.run (w : World) : List Event → World
  | [] => w
  | e :: es => ((w.step e).1).run es

/-- A freshly constructed adapter (`new MockInterface()`): empty, unnamed
and live. -/
def mkMockInterface : MockInterface := {}

/-- Apply a sequence of `setItemSync` calls; used to state the
insertion-order property. -/
def setItems (s : MockInterface) (h : Heap) :
    List (String × Nat) → MockInterface × Heap
  | [] => (s, h)
  | (k, a) :: rest =>
      setItems (setItemSync s h k a).2.1 (setItemSync s h k a).2.2 rest

/-- The deep value observed by a caller of `getItemSync`: the content of
the returned reference, when the call succeeds with a present key. -/
def getValue (s : MockInterface) (h : Heap) (k : String) : Option JSVal :=
  match (getItemSync s h k).1 with
  | .ok (some a) => some ((getItemSync s h k).2.get a)
  | _ => none

/-- Concrete already-deleted instance, for example instantiations. -/
def deletedIface : MockInterface :=
  { storageName := "settings", isDeleted := true, storage := [] }

/-- Concrete live instance holding one entry, for example
instantiations. -/
def sampleIface : MockInterface :=
  { storageName := "settings", isDeleted := false, storage := [("value", 0)] }

/-- Concrete one-cell heap, for example instantiations. -/
def sampleHeap : Heap := ⟨[JSVal.number 42]⟩

/-- Concrete world whose instance is already deleted, for example
instantiations. -/
def deletedWorld : World :=
  { iface := deletedIface, heap := sampleHeap, pending := [] }

/-! ### Lemmas about the insertion-ordered map -/

/-- Setting a key makes it readable. -/
theorem mapGet_mapSet_self (m : Entries) (k : String) (v : Nat) :
    mapGet (mapSet m k v) k = some v := by
  induction m with
  | nil => simp [mapSet, mapGet]
  | cons p rest ih =>
      obtain ⟨k', a⟩ := p
      by_cases hk : k' = k
      · subst hk; simp [mapSet, mapGet]
      · simp [mapSet, mapGet, hk, ih]

/-- Overwriting an existing key keeps the insertion order of keys
unchanged. -/
theorem keys_mapSet_of_mem (m : Entries) (k : String) (v : Nat)
    (hmem : k ∈ m.map Prod.fst) :
    (mapSet m k v).map Prod.fst = m.map Prod.fst := by
  induction m with
  | nil => simp at hmem
  | cons p rest ih =>
      obtain ⟨k', a⟩ := p
      by_cases hk : k' = k
      · subst hk; simp [mapSet]
      · have hrest : k ∈ rest.map Prod.fst := by
          simp only [List.map_cons] at hmem
          rcases List.mem_cons.mp hmem with h | h
          · exact absurd h.symm hk
          · exact h
        simp [mapSet, hk, ih hrest]

/-- Setting a fresh key appends it at the end of the insertion order. -/
theorem keys_mapSet_of_not_mem (m : Entries) (k : String) (v : Nat)
    (hmem : k ∉ m.map Prod.fst) :
    (mapSet m k v).map Prod.fst = m.map Prod.fst ++ [k] := by
  induction m with
  | nil => simp [mapSet]
  | cons p rest ih =>
      obtain ⟨k', a⟩ := p
      have hk : ¬k' = k := by rintro rfl; exact hmem (by simp)
      have hrest : k ∉ rest.map Prod.fst := fun hin => hmem (by simp [hin])
      simp [mapSet, hk, ih hrest]

/-- Deleting a key erases exactly its first (unique) occurrence from the
key order. -/
theorem keys_mapDelete (m : Entries) (k : String) :
    (mapDelete m k).map Prod.fst = (m.map Prod.fst).erase k := by
  induction m with
  | nil => simp [mapDelete]
  | cons p rest ih =>
      obtain ⟨k', a⟩ := p
      by_cases hk : k' = k
      · subst hk; simp [mapDelete]
      · rw [show (((k', a) :: rest : Entries).map Prod.fst) =
              k' :: rest.map Prod.fst from rfl,
            List.erase_cons_tail (by simpa using hk)]
        simp [mapDelete, hk, ih]

/-! ### Lemmas about the heap -/

/-- Reading the freshly allocated cell gives back the allocated value. -/
theorem Heap.get_alloc_fresh (h : Heap) (v : JSVal) :
    (h.alloc v).1.get (h.alloc v).2 = v := by
  show (h.cells ++ [v]).getD h.cells.length .null = v
  rw [List.getD_append_right _ _ _ _ (Nat.le_refl _)]
  simp

/-- Allocation leaves all previously valid cells unchanged. -/
theorem Heap.get_alloc_old (h : Heap) (v : JSVal) (a : Nat)
    (ha : a < h.cells.length) : (h.alloc v).1.get a = h.get a := by
  show (h.cells ++ [v]).getD a .null = h.cells.getD a .null
  exact List.getD_append _ _ _ _ ha

/-- Allocation grows the heap by one cell. -/
theorem Heap.length_alloc (h : Heap) (v : JSVal) :
    (h.alloc v).1.cells.length = h.cells.length + 1 := by
  simp [Heap.alloc]

/-- Writing one cell does not change any other cell. -/
theorem Heap.get_write_ne (h : Heap) (a b : Nat) (v : JSVal) (hba : b ≠ a) :
    (h.write b v).get a = h.get a := by
  show (h.cells.set b v).getD a .null = h.cells.getD a .null
  simp [List.getD_eq_getElem?_getD, List.getElem?_set_ne hba]

/-- Writing a cell does not change the heap size. -/
theorem Heap.length_write (h : Heap) (b : Nat) (v : JSVal) :
    (h.write b v).cells.length = h.cells.length := by
  simp [Heap.write]

/-! ### The deleted latch is one-way -/

/-- No action closure ever clears the latch. -/
theorem runAction_isDeleted (act : Option MockAction) (s : MockInterface)
    (h : Heap) (hdel : s.isDeleted = true) :
    (runAction act s h).1.isDeleted = true := by
  rcases act with _ | act
  · simp [runAction, hdel]
  · rcases act with name | ⟨k, a⟩ | k | _ | _ <;> simp [runAction, hdel]

/-- A firing timer never clears the latch. -/
theorem fireTimer_isDeleted (p : DelaySetup) (s : MockInterface) (h : Heap)
    (hdel : s.isDeleted = true) :
    (fireTimer p s h).1.isDeleted = true := by
  have h1 := runAction_isDeleted p.action s h hdel
  simp only [fireTimer, hdel]
  split
  · exact hdel
  · exact h1

/-- No synchronous method ever clears the latch. -/
theorem runSync_isDeleted (c : SyncCall) (s : MockInterface) (h : Heap)
    (hdel : s.isDeleted = true) :
    (runSync c s h).2.1.isDeleted = true := by
  rcases c with k | ⟨k, a⟩ | k | _ | _ | i | _ | name <;>
    simp [runSync, getItemSync, setItemSync, removeItemSync, clearSync,
      sizeSync, keySync, deleteStorageSync, initSync, checkStorage, hdel]

/-- No event ever clears the latch. -/
theorem step_isDeleted (w : World) (e : Event)
    (hdel : w.iface.isDeleted = true) :
    ((w.step e).1).iface.isDeleted = true := by
  rcases e with c | c | i
  · simpa [World.step] using runSync_isDeleted c w.iface w.heap hdel
  · simpa [World.step] using hdel
  · cases hp : w.pending[i]? with
    | none => simp [World.step, hp, hdel]
    | some pf =>
        obtain ⟨p, fired⟩ := pf
        cases fired with
        | false => simp [World.step, hp, fireTimer_isDeleted p w.iface w.heap hdel]
        | true => simp [World.step, hp, hdel]

/-- Once the latch is set it stays set along any event sequence. -/
theorem run_isDeleted (w : World) (evs : List Event)
    (hdel : w.iface.isDeleted = true) :
    (w.run evs).iface.isDeleted = true := by
  induction evs generalizing w with
  | nil => simpa [World.run] using hdel
  | cons e es ih =>
      simpa [World.run] using ih ((w.step e).1) (step_isDeleted w e hdel)

/-! ### Behaviour of firing timers and sync calls on a deleted instance -/

/-- When the latch is set at fire time, the first settlement call of the
timer callback is always the rejection with `StorageDeletedError`, so the
promise rejects with it, whatever the descriptor holds. -/
theorem fireTimer_settled_of_deleted (p : DelaySetup) (s : MockInterface)
    (h : Heap) (hdel : s.isDeleted = true) :
    (fireTimer p s h).2.2.settled
      = some (.rejected (.jsError .storageDeleted)) := by
  simp only [fireTimer, hdel]
  split <;> simp [FireResult.settled]

/-- When the latch is set, every data operation (the six listed ones) run
synchronously returns `StorageDeletedError` and leaves the instance
unchanged. -/
theorem runSync_dataOp_of_deleted (c : SyncCall) (s : MockInterface)
    (h : Heap) (hdel : s.isDeleted = true) (hdata : c.isDataOp = true) :
    (runSync c s h).1 = .error .storageDeleted ∧ (runSync c s h).2.1 = s := by
  rcases c with k | ⟨k, a⟩ | k | _ | _ | i | _ | name <;>
    simp_all [runSync, getItemSync, setItemSync, removeItemSync, clearSync,
      sizeSync, keySync, checkStorage, SyncCall.isDataOp, Except.map]

/-- Inserting a list of fresh, pairwise-distinct keys into a live
instance appends them to the key order and keeps the instance live. -/
theorem setItems_keys :
    ∀ (pairs : List (String × Nat)) (s : MockInterface) (h : Heap),
    s.isDeleted = false → (pairs.map Prod.fst).Nodup →
    (∀ key ∈ pairs.map Prod.fst, key ∉ s.storage.map Prod.fst) →
    (setItems s h pairs).1.storage.map Prod.fst
        = s.storage.map Prod.fst ++ pairs.map Prod.fst
    ∧ (setItems s h pairs).1.isDeleted = false := by
  intro pairs
  induction pairs with
  | nil => intro s h hlive _ _; simp [setItems, hlive]
  | cons p rest ih =>
      obtain ⟨k, a⟩ := p
      intro s h hlive hnodup hdisj
      have hknotin : k ∉ s.storage.map Prod.fst := hdisj k (by simp)
      have hset : (setItemSync s h k a).2.1
          = { s with
              storage := mapSet s.storage k (structuredClone h a).2 } := by
        simp [setItemSync, checkStorage, hlive]
      have hlive' : (setItemSync s h k a).2.1.isDeleted = false := by
        rw [hset]; exact hlive
      have hkeys' : (setItemSync s h k a).2.1.storage.map Prod.fst
          = s.storage.map Prod.fst ++ [k] := by
        rw [hset]; exact keys_mapSet_of_not_mem _ _ _ hknotin
      have hnodup' : (rest.map Prod.fst).Nodup :=
        (List.nodup_cons.mp (by simpa using hnodup)).2
      have hknotinrest : k ∉ rest.map Prod.fst :=
        (List.nodup_cons.mp (by simpa using hnodup)).1
      have hdisj' : ∀ key ∈ rest.map Prod.fst,
          key ∉ (setItemSync s h k a).2.1.storage.map Prod.fst := by
        intro key hkey
        rw [hkeys']
        intro hmem
        rcases List.mem_append.mp hmem with hm | hm
        · exact hdisj key (by simp [hkey]) hm
        · rw [List.mem_singleton] at hm
          subst hm
          exact hknotinrest hkey
      obtain ⟨ihk, ihd⟩ :=
        ih (setItemSync s h k a).2.1 (setItemSync s h k a).2.2 hlive'
          hnodup' hdisj'
      have hstep : setItems s h ((k, a) :: rest)
          = setItems (setItemSync s h k a).2.1 (setItemSync s h k a).2.2
              rest := rfl
      constructor
      · rw [hstep, ihk, hkeys']
        simp
      · rw [hstep]
        exact ihd

/-! ### The claims -/

/-- C1 (latch finality): from any session whose instance has the deleted
latch set, after any further event sequence the latch is still set, every
synchronous data operation (getItem, setItem, removeItem, clear, size,
keyAt) returns `StorageDeletedError`, and every deferred operation whose
timer fires — whenever it was initiated — settles as a rejection with
`StorageDeletedError`. -/
theorem c1_latch_finality (w : World) (hdel : w.iface.isDeleted = true)
    (evs : List Event) :
    (w.run evs).iface.isDeleted = true
    ∧ (∀ c : SyncCall, c.isDataOp = true →
        (runSync c (w.run evs).iface (w.run evs).heap).1
          = .error .storageDeleted)
    ∧ (∀ p : DelaySetup,
        (fireTimer p (w.run evs).iface (w.run evs).heap).2.2.settled
          = some (.rejected (.jsError .storageDeleted))) := by
  have hd := run_isDeleted w evs hdel
  exact ⟨hd,
    fun c hc => (runSync_dataOp_of_deleted c _ _ hd hc).1,
    fun p => fireTimer_settled_of_deleted p _ _ hd⟩

/-- Witness for C1 at a concrete deleted world and a concrete event
sequence. -/
theorem c1_latch_finality_witness :
    deletedWorld.iface.isDeleted = true
    ∧ ((deletedWorld.run [.sync (.setItem "k" 0), .fire 0]).iface.isDeleted
          = true
      ∧ (∀ c : SyncCall, c.isDataOp = true →
          (runSync c (deletedWorld.run [.sync (.setItem "k" 0), .fire 0]).iface
            (deletedWorld.run [.sync (.setItem "k" 0), .fire 0]).heap).1
            = .error .storageDeleted)
      ∧ (∀ p : DelaySetup,
          (fireTimer p
            (deletedWorld.run [.sync (.setItem "k" 0), .fire 0]).iface
            (deletedWorld.run [.sync (.setItem "k" 0), .fire 0]).heap).2.2.settled
            = some (.rejected (.jsError .storageDeleted)))) :=
  ⟨rfl, c1_latch_finality deletedWorld rfl [.sync (.setItem "k" 0), .fire 0]⟩

/-- C2 (deletion pre-empts in-flight results): a deferred operation
initiated on a live instance, whose timer fires once the latch has been
set, settles as the rejection with `StorageDeletedError` and never as a
resolution with its originally configured success payload. -/
theorem c2_deletion_preempts (c : AsyncCall) (s₀ : MockInterface) (h₀ : Heap)
    (_hlive : s₀.isDeleted = false) (s₁ : MockInterface) (h₁ : Heap)
    (hdel : s₁.isDeleted = true) :
    (fireTimer (initiateAsync c s₀ h₀).2 s₁ h₁).2.2.settled
      = some (.rejected (.jsError .storageDeleted))
    ∧ ∀ d, (fireTimer (initiateAsync c s₀ h₀).2 s₁ h₁).2.2.settled
        ≠ some (.resolved d) := by
  have hs := fireTimer_settled_of_deleted (initiateAsync c s₀ h₀).2 s₁ h₁ hdel
  refine ⟨hs, fun d hc => ?_⟩
  rw [hs] at hc
  simp at hc

/-- Witness for C2: a `getItemAsync` started on a live instance and fired
on the deleted one. -/
theorem c2_deletion_preempts_witness :
    sampleIface.isDeleted = false
    ∧ deletedIface.isDeleted = true
    ∧ ((fireTimer (initiateAsync (.getItem "value") sampleIface sampleHeap).2
          deletedIface sampleHeap).2.2.settled
        = some (.rejected (.jsError .storageDeleted))
      ∧ ∀ d, (fireTimer
            (initiateAsync (.getItem "value") sampleIface sampleHeap).2
            deletedIface sampleHeap).2.2.settled
          ≠ some (.resolved d)) :=
  ⟨rfl, rfl,
    c2_deletion_preempts (.getItem "value") sampleIface sampleHeap rfl
      deletedIface sampleHeap rfl⟩

/-- C4 (deleteStorage semantics): on a live instance the synchronous form
succeeds, empties the map and sets the latch; the asynchronous form fired
on the live instance resolves with the `Ok` marker, empties the map and
sets the latch; and no event whatsoever ever clears the latch. -/
theorem c4_delete_storage (s : MockInterface) (h : Heap)
    (hlive : s.isDeleted = false) :
    ((deleteStorageSync s).1 = .ok ()
      ∧ (deleteStorageSync s).2.storage = []
      ∧ (deleteStorageSync s).2.isDeleted = true)
    ∧ ((fireTimer deleteStorageAsyncInit s h).2.2.settled
          = some (.resolved .okMarker)
      ∧ (fireTimer deleteStorageAsyncInit s h).1.storage = []
      ∧ (fireTimer deleteStorageAsyncInit s h).1.isDeleted = true)
    ∧ (∀ (w : World) (e : Event), w.iface.isDeleted = true →
        ((w.step e).1).iface.isDeleted = true) := by
  refine ⟨?_, ?_, fun w e hd => step_isDeleted w e hd⟩
  · simp [deleteStorageSync, checkStorage, hlive]
  · simp [fireTimer, deleteStorageAsyncInit, hlive, runAction,
      FireResult.settled]

/-- Witness for C4 at a concrete live instance. -/
theorem c4_delete_storage_witness :
    sampleIface.isDeleted = false
    ∧ (((deleteStorageSync sampleIface).1 = .ok ()
      ∧ (deleteStorageSync sampleIface).2.storage = []
      ∧ (deleteStorageSync sampleIface).2.isDeleted = true)
    ∧ ((fireTimer deleteStorageAsyncInit sampleIface sampleHeap).2.2.settled
          = some (.resolved .okMarker)
      ∧ (fireTimer deleteStorageAsyncInit sampleIface sampleHeap).1.storage
          = []
      ∧ (fireTimer deleteStorageAsyncInit sampleIface sampleHeap).1.isDeleted
          = true)
    ∧ (∀ (w : World) (e : Event), w.iface.isDeleted = true →
        ((w.step e).1).iface.isDeleted = true)) :=
  ⟨rfl, c4_delete_storage sampleIface sampleHeap rfl⟩

/-- Counterexample to C5 as stated: a second call to `deleteStorageSync`
does raise — `deleteStorageSync` runs `checkStorage` first, so with the
latch already set it throws `StorageDeletedError`. -/
theorem c5_counterexample :
    (deleteStorageSync (deleteStorageSync sampleIface).2).1
      = .error .storageDeleted := by decide

/-- C5 as amended: a second `deleteStorage` raises `StorageDeletedError`.
The synchronous form checks the latch first and throws, leaving the state
untouched; the asynchronous form's fired timer rejects the promise with
`StorageDeletedError`, although its action still re-clears the (already
empty) map and re-sets the latch. -/
theorem c5_amended_second_delete (s : MockInterface) (h : Heap)
    (hdel : s.isDeleted = true) :
    ((deleteStorageSync s).1 = .error .storageDeleted
      ∧ (deleteStorageSync s).2 = s)
    ∧ ((fireTimer deleteStorageAsyncInit s h).2.2.settled
        = some (.rejected (.jsError .storageDeleted))
      ∧ (fireTimer deleteStorageAsyncInit s h).1.storage = []
      ∧ (fireTimer deleteStorageAsyncInit s h).1.isDeleted = true) := by
  refine ⟨?_, fireTimer_settled_of_deleted _ _ _ hdel, ?_, ?_⟩
  · simp [deleteStorageSync, checkStorage, hdel]
  · simp [fireTimer, deleteStorageAsyncInit, hdel, runAction]
  · simp [fireTimer, deleteStorageAsyncInit, hdel, runAction]

/-- Witness for the amended C5 at a concrete deleted instance. -/
theorem c5_amended_second_delete_witness :
    deletedIface.isDeleted = true
    ∧ (((deleteStorageSync deletedIface).1 = .error .storageDeleted
      ∧ (deleteStorageSync deletedIface).2 = deletedIface)
    ∧ ((fireTimer deleteStorageAsyncInit deletedIface sampleHeap).2.2.settled
        = some (.rejected (.jsError .storageDeleted))
      ∧ (fireTimer deleteStorageAsyncInit deletedIface sampleHeap).1.storage
          = []
      ∧ (fireTimer deleteStorageAsyncInit deletedIface
          sampleHeap).1.isDeleted = true)) :=
  ⟨rfl, c5_amended_second_delete deletedIface sampleHeap rfl⟩

/-- C6 (out-of-range keyAt is not an error): on a live instance, `keySync`
with a negative index or an index at or past the size returns `undefined`
without raising, and the corresponding `keyAsync` captures `undefined` as
its success payload. -/
theorem c6_key_out_of_range (s : MockInterface) (i : Int)
    (hlive : s.isDeleted = false)
    (hout : i < 0 ∨ (s.storage.length : Int) ≤ i) :
    keySync s i = .ok none
    ∧ (keyAsyncInit s i).resolve = some (.strOpt none) := by
  have hnone : listGetI s.storage i = none := by
    rcases hout with hneg | hge
    · simp [listGetI, hneg]
    · have hnn : ¬i < 0 := by omega
      have hlen : s.storage.length ≤ i.toNat := by omega
      simp [listGetI, hnn, List.getElem?_eq_none hlen]
  constructor
  · simp [keySync, checkStorage, hlive, hnone]
  · simp [keyAsyncInit, hnone]

/-- Witness for C6 at a concrete live instance and index. -/
theorem c6_key_out_of_range_witness :
    (sampleIface.isDeleted = false
      ∧ ((5 : Int) < 0 ∨ (sampleIface.storage.length : Int) ≤ 5))
    ∧ (keySync sampleIface 5 = .ok none
      ∧ (keyAsyncInit sampleIface 5).resolve = some (.strOpt none)) :=
  ⟨⟨rfl, by decide⟩, c6_key_out_of_range sampleIface 5 rfl (by decide)⟩

/-- C9 (wait descriptor contract): firing a descriptor with both outcomes
or with neither configured throws the contract-violation error; firing a
validly configured descriptor (exactly one outcome) throws nothing and
always settles the promise (exactly one outcome, success or failure); and
every descriptor built by the adapter's own async methods is validly
configured. -/
theorem c9_wait_contract :
    (∀ (p : DelaySetup) (s : MockInterface) (h : Heap),
        ((p.resolve.isSome = true ∧ p.reject.isSome = true)
          ∨ (p.resolve = none ∧ p.reject = none)) →
        (fireTimer p s h).2.2.thrown = some .contractViolation)
    ∧ (∀ (p : DelaySetup) (s : MockInterface) (h : Heap),
        ((p.resolve.isSome = true ∧ p.reject = none)
          ∨ (p.resolve = none ∧ p.reject.isSome = true)) →
        (fireTimer p s h).2.2.thrown = none
          ∧ ∃ st, (fireTimer p s h).2.2.settled = some st)
    ∧ (∀ (c : AsyncCall) (s : MockInterface) (h : Heap),
        (initiateAsync c s h).2.resolve.isSome = true
          ∧ (initiateAsync c s h).2.reject = none) := by
  refine ⟨fun p s h hcond => ?_, fun p s h hcond => ?_, fun c s h => ?_⟩
  · have hb : ((p.resolve.isSome && p.reject.isSome)
        || (p.resolve.isNone && p.reject.isNone)) = true := by
      rcases hcond with ⟨h1, h2⟩ | ⟨h1, h2⟩ <;> simp [h1, h2]
    simp [fireTimer, hb]
  · rcases hcond with ⟨h1, h2⟩ | ⟨h1, h2⟩
    · obtain ⟨d, hd⟩ := Option.isSome_iff_exists.mp h1
      constructor
      · simp [fireTimer, hd, h2]
      · cases hs : s.isDeleted
        · exact ⟨.resolved d,
            by simp [fireTimer, hd, h2, hs, FireResult.settled]⟩
        · exact ⟨.rejected (.jsError .storageDeleted),
            by simp [fireTimer, hd, h2, hs, FireResult.settled]⟩
    · obtain ⟨d, hd⟩ := Option.isSome_iff_exists.mp h2
      constructor
      · simp [fireTimer, hd, h1]
      · cases hs : s.isDeleted
        · exact ⟨.rejected d,
            by simp [fireTimer, hd, h1, hs, FireResult.settled]⟩
        · exact ⟨.rejected (.jsError .storageDeleted),
            by simp [fireTimer, hd, h1, hs, FireResult.settled]⟩
  · cases c with
    | getItem k =>
        cases hm : mapGet s.storage k <;>
          simp [initiateAsync, getItemAsyncInit, hm]
    | setItem k a => simp [initiateAsync, setItemAsyncInit]
    | removeItem k => simp [initiateAsync, removeItemAsyncInit]
    | clear => simp [initiateAsync, clearAsyncInit]
    | size => simp [initiateAsync, sizeAsyncInit]
    | keyAt i => simp [initiateAsync, keyAsyncInit]
    | deleteStorage => simp [initiateAsync, deleteStorageAsyncInit]
    | init name => simp [initiateAsync, initAsyncInit]

/-- Witness for C9: a descriptor with both outcomes set throws the
contract violation. -/
theorem c9_wait_contract_witness :
    (((⟨some .okMarker, some .okMarker, none⟩ : DelaySetup).resolve.isSome
          = true
        ∧ (⟨some .okMarker, some .okMarker, none⟩
            : DelaySetup).reject.isSome = true)
      ∨ ((⟨some .okMarker, some .okMarker, none⟩ : DelaySetup).resolve = none
        ∧ (⟨some .okMarker, some .okMarker, none⟩
            : DelaySetup).reject = none))
    ∧ (fireTimer ⟨some .okMarker, some .okMarker, none⟩ sampleIface
        sampleHeap).2.2.thrown = some .contractViolation :=
  ⟨Or.inl ⟨rfl, rfl⟩,
    c9_wait_contract.1 ⟨some .okMarker, some .okMarker, none⟩ sampleIface
      sampleHeap (Or.inl ⟨rfl, rfl⟩)⟩

/-- Counterexample to C3 as stated: starting from a fresh live instance,
initiate a deferred `setItem`, delete the storage synchronously (map now
empty, latch set), then let the pending timer fire: although the promise
rejects, the callback still runs its action — `reject` is not followed by
a `return` — so the map is mutated after deletion and is no longer
empty. -/
theorem c3_counterexample :
    (World.run
        { iface := {}, heap := ⟨[JSVal.number 1]⟩, pending := [] }
        [.start (.setItem "k" 0), .sync .deleteStorage,
          .fire 0]).iface.storage
      ≠ [] := by decide

/-- C3 as amended: after the latch is set, synchronous operations never
mutate the map, and firing a deferred operation without an action (the
read forms getItemAsync, sizeAsync, keyAsync) leaves the map unchanged;
but firing a pending `setItemAsync` still performs its insertion even
though its promise rejects with `StorageDeletedError`. -/
theorem c3_amended_no_sync_mutation :
    (∀ (c : SyncCall) (s : MockInterface) (h : Heap), s.isDeleted = true →
        (runSync c s h).2.1.storage = s.storage)
    ∧ (∀ (p : DelaySetup) (s : MockInterface) (h : Heap),
        s.isDeleted = true → p.action = none →
        (fireTimer p s h).1.storage = s.storage)
    ∧ (∀ (s : MockInterface) (h : Heap) (k : String) (a : Nat),
        s.isDeleted = true →
        (fireTimer (setItemAsyncInit k a) s h).1.storage
            = mapSet s.storage k (structuredClone h a).2
          ∧ (fireTimer (setItemAsyncInit k a) s h).2.2.settled
            = some (.rejected (.jsError .storageDeleted))) := by
  refine ⟨fun c s h hdel => ?_, fun p s h hdel hact => ?_,
    fun s h k a hdel => ⟨?_, fireTimer_settled_of_deleted _ _ _ hdel⟩⟩
  · rcases c with k | ⟨k, a⟩ | k | _ | _ | i | _ | name <;>
      simp [runSync, getItemSync, setItemSync, removeItemSync, clearSync,
        sizeSync, keySync, deleteStorageSync, initSync, checkStorage, hdel]
  · simp only [fireTimer, hdel]
    split
    · rfl
    · simp [hact, runAction]
  · simp [fireTimer, setItemAsyncInit, hdel, runAction]

/-- Witness for the amended C3: a pending `setItemAsync` fired on the
concrete deleted instance inserts its entry while its promise rejects. -/
theorem c3_amended_no_sync_mutation_witness :
    deletedIface.isDeleted = true
    ∧ ((fireTimer (setItemAsyncInit "k" 0) deletedIface sampleHeap).1.storage
        = mapSet deletedIface.storage "k" (structuredClone sampleHeap 0).2
      ∧ (fireTimer (setItemAsyncInit "k" 0) deletedIface
          sampleHeap).2.2.settled
        = some (.rejected (.jsError .storageDeleted))) :=
  ⟨rfl, c3_amended_no_sync_mutation.2.2 deletedIface sampleHeap "k" 0 rfl⟩

/-- C10 (async reads capture at initiation): the success payload of
`getItemAsync`, `sizeAsync` and `keyAsync` is computed from the state at
initiation time; firing the descriptor on any live instance — whatever
its map holds by then — resolves with exactly that captured payload and
mutates nothing, and the captured `getItemAsync` cell holds the value the
map bound at initiation time. -/
theorem c10_async_reads_capture (s₁ : MockInterface) (h₁ : Heap)
    (k : String) (i : Int) (s₂ : MockInterface) (h₂ : Heap)
    (hlive : s₂.isDeleted = false) :
    ((fireTimer (getItemAsyncInit s₁ h₁ k).2 s₂ h₂).2.2.settled
        = some (.resolved (.value
            ((mapGet s₁.storage k).map fun _ => h₁.cells.length)))
      ∧ (∀ a, mapGet s₁.storage k = some a →
          (getItemAsyncInit s₁ h₁ k).1.get h₁.cells.length = h₁.get a)
      ∧ (fireTimer (getItemAsyncInit s₁ h₁ k).2 s₂ h₂).1 = s₂)
    ∧ ((fireTimer (sizeAsyncInit s₁) s₂ h₂).2.2.settled
        = some (.resolved (.num s₁.storage.length))
      ∧ (fireTimer (sizeAsyncInit s₁) s₂ h₂).1 = s₂)
    ∧ ((fireTimer (keyAsyncInit s₁ i) s₂ h₂).2.2.settled
        = some (.resolved (.strOpt ((listGetI s₁.storage i).map Prod.fst)))
      ∧ (fireTimer (keyAsyncInit s₁ i) s₂ h₂).1 = s₂) := by
  refine ⟨⟨?_, fun a hm => ?_, ?_⟩, ⟨?_, ?_⟩, ?_, ?_⟩
  · cases hm : mapGet s₁.storage k <;>
      simp [getItemAsyncInit, hm, fireTimer, hlive, runAction,
        FireResult.settled, structuredClone, Heap.alloc]
  · simp only [getItemAsyncInit, hm]
    exact Heap.get_alloc_fresh h₁ (h₁.get a)
  · cases hm : mapGet s₁.storage k <;>
      simp [getItemAsyncInit, hm, fireTimer, hlive, runAction]
  · simp [sizeAsyncInit, fireTimer, hlive, runAction, FireResult.settled]
  · simp [sizeAsyncInit, fireTimer, hlive, runAction]
  · simp [keyAsyncInit, fireTimer, hlive, runAction, FireResult.settled]
  · simp [keyAsyncInit, fireTimer, hlive, runAction]

/-- Witness for C10: a `sizeAsync` captured on the one-entry instance
resolves with that size even when fired on a fresh empty instance. -/
theorem c10_async_reads_capture_witness :
    mkMockInterface.isDeleted = false
    ∧ ((fireTimer (sizeAsyncInit sampleIface) mkMockInterface
          sampleHeap).2.2.settled
        = some (.resolved (.num sampleIface.storage.length))
      ∧ (fireTimer (sizeAsyncInit sampleIface) mkMockInterface
          sampleHeap).1 = mkMockInterface) :=
  ⟨rfl,
    (c10_async_reads_capture sampleIface sampleHeap "value" 0
      mkMockInterface sampleHeap rfl).2.1⟩

/-- C8 (insertion-order iteration): inserting pairwise-distinct keys into
a fresh instance makes `keyAt(i)` for each i below the size yield the
keys in insertion order; overwriting an existing key keeps the key order
unchanged; removing a key and setting it again moves it to the end of the
order. -/
theorem c8_insertion_order :
    (∀ (h : Heap) (pairs : List (String × Nat)),
        (pairs.map Prod.fst).Nodup →
        sizeSync (setItems mkMockInterface h pairs).1 = .ok pairs.length
        ∧ ∀ (i : Nat) (hi : i < pairs.length),
            keySync (setItems mkMockInterface h pairs).1 (i : Int)
              = .ok (some (pairs.get ⟨i, hi⟩).1))
    ∧ (∀ (s : MockInterface) (h : Heap) (k : String) (a : Nat),
        s.isDeleted = false → k ∈ s.storage.map Prod.fst →
        (setItemSync s h k a).2.1.storage.map Prod.fst
          = s.storage.map Prod.fst)
    ∧ (∀ (s : MockInterface) (h : Heap) (k : String) (a : Nat),
        s.isDeleted = false → (s.storage.map Prod.fst).Nodup →
        k ∈ s.storage.map Prod.fst →
        (setItemSync (removeItemSync s k).2 h k a).2.1.storage.map Prod.fst
          = (s.storage.map Prod.fst).erase k ++ [k]) := by
  refine ⟨fun h pairs hnodup => ?_, fun s h k a hlive hmem => ?_,
    fun s h k a hlive hnodup hmem => ?_⟩
  · obtain ⟨hkeys, hlive'⟩ :=
      setItems_keys pairs mkMockInterface h rfl hnodup
        (by intro key _; simp [mkMockInterface])
    rw [show mkMockInterface.storage.map Prod.fst = [] from rfl,
      List.nil_append] at hkeys
    constructor
    · have hlen := congrArg List.length hkeys
      simp only [List.length_map] at hlen
      simp [sizeSync, checkStorage, hlive', hlen]
    · intro i hi
      have hnn : ¬(i : Int) < 0 := by omega
      have hi' : i < (pairs.map Prod.fst).length := by simpa using hi
      simp only [keySync, checkStorage, hlive', Bool.false_eq_true,
        if_false, listGetI, hnn, Int.toNat_natCast]
      rw [← List.getElem?_map, hkeys, List.getElem?_eq_getElem hi']
      simp
  · have hset : (setItemSync s h k a).2.1
        = { s with
            storage := mapSet s.storage k (structuredClone h a).2 } := by
      simp [setItemSync, checkStorage, hlive]
    rw [hset]
    exact keys_mapSet_of_mem _ _ _ hmem
  · have hrem : (removeItemSync s k).2
        = { s with storage := mapDelete s.storage k } := by
      simp [removeItemSync, checkStorage, hlive]
    have hset : (setItemSync (removeItemSync s k).2 h k a).2.1
        = { s with
            storage := mapSet (mapDelete s.storage k) k
              (structuredClone h a).2 } := by
      simp [hrem, setItemSync, checkStorage, hlive]
    have hnotin : k ∉ (mapDelete s.storage k).map Prod.fst := by
      rw [keys_mapDelete]
      intro hmem'
      exact ((List.Nodup.mem_erase_iff hnodup).mp hmem').1 rfl
    rw [hset]
    show (mapSet (mapDelete s.storage k) k
        (structuredClone h a).2).map Prod.fst = _
    rw [keys_mapSet_of_not_mem _ _ _ hnotin, keys_mapDelete]

/-- Witness for C8: two distinct keys inserted into a fresh instance are
iterated in insertion order. -/
theorem c8_insertion_order_witness :
    ((([("a", 0), ("b", 1)] : List (String × Nat)).map Prod.fst).Nodup)
    ∧ (sizeSync
          (setItems mkMockInterface sampleHeap [("a", 0), ("b", 1)]).1
        = .ok 2
      ∧ ∀ (i : Nat)
          (hi : i < ([("a", 0), ("b", 1)] : List (String × Nat)).length),
          keySync (setItems mkMockInterface sampleHeap
              [("a", 0), ("b", 1)]).1 (i : Int)
            = .ok (some ((([("a", 0), ("b", 1)]
                : List (String × Nat)).get ⟨i, hi⟩).1))) :=
  ⟨by decide,
    c8_insertion_order.1 sampleHeap [("a", 0), ("b", 1)] (by decide)⟩

/-- C7 (round-trip with isolation): on a live instance, `setItem(k, v)`
followed by `getItem(k)` succeeds and returns a value deep-equal to `v`
held at a reference distinct from `v`; overwriting the caller's original
reference after storing, or overwriting the returned reference, does not
change what later `getItem(k)` calls observe. -/
theorem c7_round_trip (s : MockInterface) (h : Heap) (k : String) (a : Nat)
    (hlive : s.isDeleted = false) (ha : a < h.cells.length) :
    (setItemSync s h k a).1 = .ok ()
    ∧ getValue (setItemSync s h k a).2.1 (setItemSync s h k a).2.2 k
        = some (h.get a)
    ∧ (∀ a₂, (getItemSync (setItemSync s h k a).2.1
          (setItemSync s h k a).2.2 k).1 = .ok (some a₂) → a₂ ≠ a)
    ∧ (∀ t, getValue (setItemSync s h k a).2.1
          (((setItemSync s h k a).2.2).write a t) k = some (h.get a))
    ∧ (∀ t a₂, (getItemSync (setItemSync s h k a).2.1
            (setItemSync s h k a).2.2 k).1 = .ok (some a₂) →
        getValue (setItemSync s h k a).2.1
          (((getItemSync (setItemSync s h k a).2.1
              (setItemSync s h k a).2.2 k).2).write a₂ t) k
          = some (h.get a)) := by
  have hstore : (setItemSync s h k a).2.1
      = { s with storage := mapSet s.storage k (h.alloc (h.get a)).2 } := by
    simp [setItemSync, checkStorage, hlive, structuredClone]
  have hheap : (setItemSync s h k a).2.2 = (h.alloc (h.get a)).1 := by
    simp [setItemSync, checkStorage, hlive, structuredClone]
  have hret : (setItemSync s h k a).1 = .ok () := by
    simp [setItemSync, checkStorage, hlive]
  have hgetGeneric : ∀ hh : Heap,
      getItemSync
        { s with storage := mapSet s.storage k (h.alloc (h.get a)).2 } hh k
      = (.ok (some (hh.alloc (hh.get (h.alloc (h.get a)).2)).2),
          (hh.alloc (hh.get (h.alloc (h.get a)).2)).1) := by
    intro hh
    simp [getItemSync, checkStorage, hlive, mapGet_mapSet_self,
      structuredClone]
  refine ⟨hret, ?_, ?_, ?_, ?_⟩
  · rw [hstore, hheap]
    simp [getValue, hgetGeneric, Heap.get_alloc_fresh]
  · intro a₂ hres
    simp only [hstore, hheap, hgetGeneric] at hres
    simp only [Except.ok.injEq, Option.some.injEq] at hres
    have hlen : ((h.alloc (h.get a)).1.alloc
        ((h.alloc (h.get a)).1.get (h.alloc (h.get a)).2)).2
        = h.cells.length + 1 := by
      simp [Heap.alloc]
    rw [← hres, hlen]
    omega
  · intro t
    rw [hstore, hheap]
    have hne : a ≠ (h.alloc (h.get a)).2 := by
      show a ≠ h.cells.length
      omega
    have e3 : (((h.alloc (h.get a)).1.write a t)).get
        ((h.alloc (h.get a)).2) = h.get a := by
      rw [Heap.get_write_ne _ _ _ _ hne]
      exact Heap.get_alloc_fresh h (h.get a)
    simp [getValue, hgetGeneric, e3, Heap.get_alloc_fresh]
  · intro t a₂ hres
    simp only [hstore, hheap, hgetGeneric] at hres
    simp only [Except.ok.injEq, Option.some.injEq] at hres
    rw [hstore, hheap]
    simp only [hgetGeneric]
    have hina : (h.alloc (h.get a)).2 < (h.alloc (h.get a)).1.cells.length := by
      rw [Heap.length_alloc]
      show h.cells.length < h.cells.length + 1
      omega
    have hne2 : a₂ ≠ (h.alloc (h.get a)).2 := by
      rw [← hres]
      show (h.alloc (h.get a)).1.cells.length ≠ h.cells.length
      rw [Heap.length_alloc]
      omega
    have e5 : ((((h.alloc (h.get a)).1.alloc (h.get a)).1.write a₂
            t)).get ((h.alloc (h.get a)).2) = h.get a := by
      rw [Heap.get_write_ne _ _ _ _ hne2,
        Heap.get_alloc_old _ _ _ hina, Heap.get_alloc_fresh]
    simp [getValue, hgetGeneric, e5, Heap.get_alloc_fresh]

/-- Witness for C7 at a concrete instance, heap, key and value. -/
theorem c7_round_trip_witness :
    (mkMockInterface.isDeleted = false ∧ 0 < sampleHeap.cells.length)
    ∧ ((setItemSync mkMockInterface sampleHeap "k" 0).1 = .ok ()
      ∧ getValue (setItemSync mkMockInterface sampleHeap "k" 0).2.1
          (setItemSync mkMockInterface sampleHeap "k" 0).2.2 "k"
          = some (sampleHeap.get 0)
      ∧ (∀ a₂, (getItemSync (setItemSync mkMockInterface sampleHeap "k" 0).2.1
            (setItemSync mkMockInterface sampleHeap "k" 0).2.2 "k").1
            = .ok (some a₂) → a₂ ≠ 0)
      ∧ (∀ t, getValue (setItemSync mkMockInterface sampleHeap "k" 0).2.1
            (((setItemSync mkMockInterface sampleHeap "k" 0).2.2).write 0 t)
            "k" = some (sampleHeap.get 0))
      ∧ (∀ t a₂, (getItemSync (setItemSync mkMockInterface sampleHeap
              "k" 0).2.1
              (setItemSync mkMockInterface sampleHeap "k" 0).2.2 "k").1
              = .ok (some a₂) →
          getValue (setItemSync mkMockInterface sampleHeap "k" 0).2.1
            (((getItemSync (setItemSync mkMockInterface sampleHeap "k" 0).2.1
                (setItemSync mkMockInterface sampleHeap "k" 0).2.2 "k").2).write
              a₂ t) "k"
            = some (sampleHeap.get 0))) :=
  ⟨⟨rfl, by decide⟩,
    c7_round_trip mkMockInterface sampleHeap "k" 0 rfl (by decide)⟩

end MockStorage
